import Mathlib

/-!
Shallow embedding of the lazy, parameter-keyed-singleton data-manager core of
the repository (src/base_data_manager.py, src/covid_data_manager.py,
src/geojson_manager.py), together with theorems settling the frozen claims.

Python strings are modelled as `List Char`; `str.startswith` is
`List.isPrefixOf`; a pandas DataFrame is a list of rows plus a list of column
names; exceptions are modelled with `Option`/explicit error results.
-/

namespace CovidRepo

/-- A Python string, modelled as its character sequence. -/
abbrev PyStr := List Char

/-- A Python value that can appear as a constructor argument of one of the
data-manager classes: a string (file paths, fips codes, dates, encodings) or a
reference to an already-constructed node (the `outer` argument of `Filter`).
-/
inductive PyVal where
  | str (s : PyStr)
  | node (id : Nat)
deriving DecidableEq, Repr

/-- The memoization key of `functools.lru_cache` applied to `Data.__new__`:
the class together with the positional argument tuple and the keyword-argument
items in call order (`functools._make_key` does not resolve defaults, does not
normalise keyword against positional passing, and does not sort keywords). -/
structure Key where
  cls : String
  args : List PyVal
  kwargs : List (PyStr × PyVal)
deriving DecidableEq, Repr

/-- A materialized dataset row with the columns the core filters on
(`fips`, `date`) and the pass-through payload columns (`cases`, `deaths`). -/
structure Row where
  fips : PyStr
  date : PyStr
  cases : Int
  deaths : Int
deriving DecidableEq, Repr

/-- A pandas DataFrame as the core observes it: the list of column names
(`FILTER_COL in self.outer()` iterates column names) and the ordered rows. -/
structure DF where
  cols : List PyStr
  rows : List Row
deriving DecidableEq, Repr

/-- Default `maxsize` of `functools.lru_cache`, used because `Data.__new__`
is decorated with a bare `@lru_cache`. -/
def LRU_MAXSIZE : Nat := 128

/-- The mutable process state touched by `Data.__new__` and `Data.data`:
the `lru_cache` memo of `__new__` (most recent first), the allocator for
fresh object identities, the `_data` attribute of every instance that has
materialized (instance id paired with its cached dataset), and a counter of
how many times any `_generate_data` routine has run. -/
structure Sys where
  newCache : List (Key × Nat)
  nextId : Nat
  dataCache : List (Nat × DF)
  genTotal : Nat
deriving DecidableEq, Repr

/-- The state at interpreter start: no instances, no cached data. -/
def initSys : Sys := ⟨[], 0, [], 0⟩

/-- Embeds `Data.__new__` under `@lru_cache`: on a hit the cached instance is
returned and its entry moves to most-recently-used position; on a miss a fresh
instance is allocated, inserted most-recently-used, and the least recently
used entry is evicted when the cache would exceed `LRU_MAXSIZE`.
Constructing touches neither `_data` caches nor the generation counter. -/
def Data.new (s : Sys) (k : Key) : Nat × Sys :=
  match s.newCache.find? (fun e => e.1 = k) with
  | some e =>
      (e.2, { s with newCache := e :: s.newCache.filter (fun e' => ¬ e'.1 = k) })
  | none =>
      (s.nextId,
        { s with
          newCache := ((k, s.nextId) :: s.newCache).take LRU_MAXSIZE
          nextId := s.nextId + 1 })

/-- Embeds the `Data.data` property (also reached via `Data.__call__`) for the
instance `i` whose `_generate_data` would currently produce `gen` (`.ok` a
dataset, or `.error` a raised exception such as a missing source file):
if the `_data` attribute is present its value is returned and nothing runs;
otherwise `_generate_data` runs once, and only on success is its result
assigned to `_data` (an exception propagates before the assignment). -/
def Data.dataGet (s : Sys) (i : Nat) (gen : Except String DF) :
    Except String DF × Sys :=
  match s.dataCache.find? (fun e => e.1 = i) with
  | some e => (.ok e.2, s)
  | none =>
      match gen with
      | .ok d =>
          (.ok d, { s with dataCache := (i, d) :: s.dataCache,
                           genTotal := s.genTotal + 1 })
      | .error e => (.error e, { s with genTotal := s.genTotal + 1 })

/-- `n` repeated materialization requests for instance `i`, each with the same
generation outcome; returns the final state. -/
def Data.dataGetIter (s : Sys) (i : Nat) (gen : Except String DF) :
    Nat → Sys
  | 0 => s
  | n + 1 => Data.dataGetIter (Data.dataGet s i gen).2 i gen n

/-- Run a sequence of construction calls, keeping only the final state. -/
def runNews (ks : List Key) (s : Sys) : Sys :=
  ks.foldl (fun s' k => (Data.new s' k).2) s

/-- Well-formedness of the identity cache, true of every state the program can
reach: every cached instance id was allocated, ids determine keys, and keys
determine ids. -/
def SysInv (s : Sys) : Prop :=
  (∀ k i, (k, i) ∈ s.newCache → i < s.nextId) ∧
  (∀ k k' i, (k, i) ∈ s.newCache → (k', i) ∈ s.newCache → k = k') ∧
  (∀ k i i', (k, i) ∈ s.newCache → (k, i') ∈ s.newCache → i = i')

/-- A concrete construction key for `Level(filepath)` with a numbered path. -/
def levelKey (n : Nat) : Key := ⟨"Level", [.str (Nat.toDigits 10 n)], []⟩

/-- Embeds the parameter binding of
`GeoJSONManager.__init__(self, filepath, encoding="ISO-8859-1")`: resolves a
call's positional and keyword arguments to the `(filepath, encoding)` pair the
body actually receives, `none` for a call shape Python would reject. -/
def GeoJSONManager.bindParams (args : List PyVal) (kwargs : List (PyStr × PyVal)) :
    Option (PyVal × PyVal) :=
  match args, kwargs with
  | [fp], [] => some (fp, .str "ISO-8859-1".toList)
  | [fp], [(kw, v)] => if kw = "encoding".toList then some (fp, v) else none
  | [fp, enc], [] => some (fp, enc)
  | _, _ => none

/-- The `__new__` cache key of the call `GeoJSONManager(path)`
(encoding left to its default). -/
def geoKeyDefaulted (p : PyStr) : Key := ⟨"GeoJSONManager", [.str p], []⟩

/-- The `__new__` cache key of the call `GeoJSONManager(path, "ISO-8859-1")`
(the default encoding passed explicitly, positionally). -/
def geoKeyExplicit (p : PyStr) : Key :=
  ⟨"GeoJSONManager", [.str p, .str "ISO-8859-1".toList], []⟩

/-- The `__new__` cache key of the call
`GeoJSONManager(path, encoding="ISO-8859-1")` (default passed by keyword). -/
def geoKeyKeyword (p : PyStr) : Key :=
  ⟨"GeoJSONManager", [.str p], [("encoding".toList, .str "ISO-8859-1".toList)]⟩

/-- A small concrete dataset used to instantiate theorems with hypotheses. -/
def sampleDF : DF :=
  ⟨["date".toList, "fips".toList, "cases".toList, "deaths".toList],
   [⟨"42".toList, "2020-09-27".toList, 5, 1⟩,
    ⟨"42003".toList, "2020-09-27".toList, 3, 0⟩,
    ⟨"06".toList, "2020-09-26".toList, 2, 0⟩]⟩

/-- The `FILTER_COL` class attribute of `Level.Region`. -/
def Region.FILTER_COL : PyStr := "fips".toList

/-- The `FILTER_COL` class attribute of `Level.Region.Date`. -/
def Date.FILTER_COL : PyStr := "date".toList

/-- The default `Filter._filter` predicate on one cell of the filter column:
`filter_col == filter_value`. -/
def Filter.filterDefault (cell value : PyStr) : Bool := cell == value

/-- The `Level.Region._filter` override on one cell of the `fips` column:
`fips_col.str.startswith(fips)`. -/
def Region.filterFn (cell fips : PyStr) : Bool := fips.isPrefixOf cell

/-- Embeds `Filter._generate_data`: if `FILTER_COL` is among the outer
dataset's columns, the outer dataset is restricted to the rows whose cell in
that column satisfies the class's `_filter`; otherwise the outer dataset is
returned unchanged. `cellOf` reads a row's cell in `FILTER_COL`. -/
def Filter.generateData (col : PyStr) (cellOf : Row → PyStr)
    (filt : PyStr → PyStr → Bool) (value : PyStr) (outer : DF) : DF :=
  if col ∈ outer.cols then
    ⟨outer.cols, outer.rows.filter (fun r => filt (cellOf r) value)⟩
  else outer

/-- Embeds `Level.Region._generate_data` (inherited from `Filter`, with
`FILTER_COL = "fips"` and the `startswith` `_filter` override). -/
def Region.generateData (outer : DF) (fips : PyStr) : DF :=
  Filter.generateData Region.FILTER_COL Row.fips Region.filterFn fips outer

/-- Embeds `Level.Region.Date._generate_data` (inherited from `Filter`, with
`FILTER_COL = "date"` and the default equality `_filter`). -/
def Date.generateData (outer : DF) (date : PyStr) : DF :=
  Filter.generateData Date.FILTER_COL Row.date Filter.filterDefault date outer

/-- The second row of `sampleDF`, the county row with fips code 42003. -/
def row42003 : Row := ⟨"42003".toList, "2020-09-27".toList, 3, 0⟩

/-- A GeoJSON feature: its `properties` sub-dict and its top-level `id` key
(absent in the source files, synthesized during generation). -/
structure Feature where
  properties : List (PyStr × PyStr)
  id : Option PyStr
deriving DecidableEq, Repr

/-- The parsed GeoJSON document: the top-level `features` array plus the other
top-level entries, which generation copies through untouched. -/
structure GeoMap where
  features : List Feature
  otherFields : List (PyStr × PyStr)
deriving DecidableEq, Repr

/-- Dict key membership, `key in feature["properties"]`. -/
def Feature.hasProp (f : Feature) (k : PyStr) : Bool :=
  (f.properties.lookup k).isSome

/-- Embeds `"".join([region["properties"][p] for p in fips_properties])`;
`none` models the `KeyError` raised when a property is missing. -/
def Feature.joinProps (f : Feature) : List PyStr → Option PyStr
  | [] => some []
  | k :: ks =>
    match f.properties.lookup k, f.joinProps ks with
    | some v, some rest => some (v ++ rest)
    | _, _ => none

/-- Embeds the per-feature loop of `GeoJSONManager._generate_data` that sets
`region["id"]`; `none` models a `KeyError` on any feature. -/
def setIds (fipsProperties : List PyStr) : List Feature → Option (List Feature)
  | [] => some []
  | f :: fs =>
    match f.joinProps fipsProperties, setIds fipsProperties fs with
    | some i, some rest => some ({ f with id := some i } :: rest)
    | _, _ => none

/-- Embeds `GeoJSONManager._generate_data` after the JSON parse: the list of
fips properties is `["STATE"]`, extended with `"COUNTY"` when the FIRST
feature's properties contain it, and every feature receives the concatenation
of those properties as its `id`. `none` models the `IndexError` on an empty
`features` array or a `KeyError` on a missing property. -/
def GeoJSONManager.generateData (g : GeoMap) : Option GeoMap :=
  match g.features with
  | [] => none
  | f0 :: _ =>
    let fipsProperties :=
      if f0.hasProp "COUNTY".toList
      then ["STATE".toList, "COUNTY".toList]
      else ["STATE".toList]
    (setIds fipsProperties g.features).map (fun fs => { g with features := fs })

/-- The county-level one-feature document of the claim's first example:
`STATE="42"`, `COUNTY="003"`. -/
def countyMap : GeoMap :=
  ⟨[⟨[("STATE".toList, "42".toList), ("COUNTY".toList, "003".toList)], none⟩],
   [("type".toList, "FeatureCollection".toList)]⟩

/-- The state-level one-feature document of the claim's second example:
only `STATE="06"`. -/
def stateMap : GeoMap :=
  ⟨[⟨[("STATE".toList, "06".toList)], none⟩],
   [("type".toList, "FeatureCollection".toList)]⟩

/-- The classes of the data-manager hierarchy. -/
inductive PyClass where
  | objectCls
  | abcCls
  | dataCls
  | covidDataCls
  | filterCls
  | levelCls
  | regionCls
  | dateCls
deriving DecidableEq, Repr

/-- What a class's own `__dict__` binds the name `date` to: `CovidData`
defines the column-projection property `date` returning `self()["date"]`;
`Level.Region` defines the derivation method `date(self, date)` returning
`self.Date(self, date)`; no other class binds the name. -/
inductive DateAttr where
  | columnProperty
  | deriveMethod
deriving DecidableEq, Repr

/-- The binding of the name `date` in each class's own `__dict__`. -/
def dateInDict : PyClass → Option DateAttr
  | .covidDataCls => some .columnProperty
  | .regionCls => some .deriveMethod
  | _ => none

/-- Method resolution order of each class, from the declared bases:
`Level(CovidData)`, `Level.Region(Filter)`, `Level.Region.Date(Filter)`,
`Filter(CovidData, ABC)`, `CovidData(Data, ABC)`, `Data(ABC)`. -/
def mro : PyClass → List PyClass
  | .objectCls => [.objectCls]
  | .abcCls => [.abcCls, .objectCls]
  | .dataCls => [.dataCls, .abcCls, .objectCls]
  | .covidDataCls => [.covidDataCls, .dataCls, .abcCls, .objectCls]
  | .filterCls => [.filterCls, .covidDataCls, .dataCls, .abcCls, .objectCls]
  | .levelCls => [.levelCls, .covidDataCls, .dataCls, .abcCls, .objectCls]
  | .regionCls =>
    [.regionCls, .filterCls, .covidDataCls, .dataCls, .abcCls, .objectCls]
  | .dateCls =>
    [.dateCls, .filterCls, .covidDataCls, .dataCls, .abcCls, .objectCls]

/-- Python attribute lookup for the name `date` on an instance of class `c`:
the first binding along the MRO wins. -/
def lookupDate (c : PyClass) : Option DateAttr :=
  (mro c).findSome? dateInDict

/-- The dataset view produced by the `CovidData.date` column property:
the date column of the node's materialized dataset. -/
def dateColumn (df : DF) : List PyStr := df.rows.map Row.date

/-- Reading the attribute named `date` on a node of class `c` whose dataset
is `df`, as a column read: the column property projects the date column, the
derivation method yields no column view (`none`). -/
def readDateAttr (c : PyClass) (df : DF) : Option (List PyStr) :=
  match lookupDate c with
  | some .columnProperty => some (dateColumn df)
  | _ => none

/-! ## Helper lemmas about the identity cache and the materialization cache -/

/-- The initial interpreter state is well formed. -/
theorem initSys_inv : SysInv initSys :=
  ⟨fun _ _ h => absurd h (List.not_mem_nil _),
   fun _ _ _ h => absurd h (List.not_mem_nil _),
   fun _ _ _ h => absurd h (List.not_mem_nil _)⟩

/-- Unfolding `Data.new` on a cache hit. -/
theorem Data.new_eq_hit {s : Sys} {k : Key} {e : Key × Nat}
    (h : s.newCache.find? (fun e' => e'.1 = k) = some e) :
    Data.new s k =
      (e.2, { s with newCache := e :: s.newCache.filter (fun e' => ¬ e'.1 = k) }) := by
  unfold Data.new
  rw [h]

/-- Unfolding `Data.new` on a cache miss. -/
theorem Data.new_eq_miss {s : Sys} {k : Key}
    (h : s.newCache.find? (fun e' => e'.1 = k) = none) :
    Data.new s k =
      (s.nextId,
        { s with
          newCache := ((k, s.nextId) :: s.newCache).take LRU_MAXSIZE
          nextId := s.nextId + 1 }) := by
  unfold Data.new
  rw [h]

/-- After any construction call, the key is cached with the returned id. -/
theorem Data.new_fst_mem (s : Sys) (k : Key) :
    (k, (Data.new s k).1) ∈ (Data.new s k).2.newCache := by
  cases h : s.newCache.find? (fun e' => e'.1 = k) with
  | some e =>
      rw [Data.new_eq_hit h]
      have hk : e.1 = k := by simpa using List.find?_some h
      rw [← hk]
      exact List.mem_cons_self _ _
  | none =>
      rw [Data.new_eq_miss h]
      rw [show LRU_MAXSIZE = 127 + 1 from rfl, List.take_succ_cons]
      exact List.mem_cons_self _ _

/-- In a well-formed state, a cached key is found with its cached id. -/
theorem SysInv.find?_eq {s : Sys} (hs : SysInv s) {k : Key} {i : Nat}
    (h : (k, i) ∈ s.newCache) :
    s.newCache.find? (fun e' => e'.1 = k) = some (k, i) := by
  cases hfind : s.newCache.find? (fun e' => e'.1 = k) with
  | none =>
      have := List.find?_eq_none.mp hfind _ h
      simp at this
  | some e =>
      have he : e ∈ s.newCache := List.mem_of_find?_eq_some hfind
      have hk : e.1 = k := by simpa using List.find?_some hfind
      have h2 : (e.1, e.2) ∈ s.newCache := he
      rw [hk] at h2
      have h3 : e.2 = i := hs.2.2 k e.2 i h2 h
      rw [show e = (k, i) from Prod.ext hk h3]

/-- Construction preserves well-formedness of the identity cache. -/
theorem Data.new_inv {s : Sys} (hs : SysInv s) (k : Key) :
    SysInv (Data.new s k).2 := by
  obtain ⟨h1, h2, h3⟩ := hs
  cases hfind : s.newCache.find? (fun e' => e'.1 = k) with
  | some e =>
      rw [Data.new_eq_hit hfind]
      have hsub : ∀ x, x ∈ e :: s.newCache.filter (fun e' => ¬ e'.1 = k) →
          x ∈ s.newCache := by
        intro x hx
        rcases List.mem_cons.mp hx with rfl | hx'
        · exact List.mem_of_find?_eq_some hfind
        · exact (List.mem_filter.mp hx').1
      exact ⟨fun k' i h => h1 k' i (hsub _ h),
             fun a b i ha hb => h2 a b i (hsub _ ha) (hsub _ hb),
             fun a i i' ha hb => h3 a i i' (hsub _ ha) (hsub _ hb)⟩
  | none =>
      rw [Data.new_eq_miss hfind]
      have hnotin : ∀ i, (k, i) ∉ s.newCache := by
        intro i hi
        have := List.find?_eq_none.mp hfind _ hi
        simp at this
      have hmem : ∀ x, x ∈ ((k, s.nextId) :: s.newCache).take LRU_MAXSIZE →
          x = (k, s.nextId) ∨ x ∈ s.newCache := by
        intro x hx
        exact List.mem_cons.mp (List.mem_of_mem_take hx)
      refine ⟨?_, ?_, ?_⟩
      · intro k' i h
        rcases hmem _ h with heq | hmem'
        · obtain ⟨rfl, rfl⟩ := Prod.mk.injEq .. ▸ heq
          exact Nat.lt_succ_self _
        · exact Nat.lt_succ_of_lt (h1 _ _ hmem')
      · intro a b i ha hb
        rcases hmem _ ha with heq | ha' <;> rcases hmem _ hb with heq' | hb'
        · obtain ⟨rfl, -⟩ := Prod.mk.injEq .. ▸ heq
          obtain ⟨rfl, -⟩ := Prod.mk.injEq .. ▸ heq'
          rfl
        · obtain ⟨rfl, rfl⟩ := Prod.mk.injEq .. ▸ heq
          exact absurd (h1 _ _ hb') (Nat.lt_irrefl _)
        · obtain ⟨rfl, rfl⟩ := Prod.mk.injEq .. ▸ heq'
          exact absurd (h1 _ _ ha') (Nat.lt_irrefl _)
        · exact h2 a b i ha' hb'
      · intro a i i' ha hb
        rcases hmem _ ha with heq | ha' <;> rcases hmem _ hb with heq' | hb'
        · obtain ⟨-, rfl⟩ := Prod.mk.injEq .. ▸ heq
          obtain ⟨-, rfl⟩ := Prod.mk.injEq .. ▸ heq'
          rfl
        · obtain ⟨rfl, rfl⟩ := Prod.mk.injEq .. ▸ heq
          exact absurd hb' (hnotin _)
        · obtain ⟨rfl, rfl⟩ := Prod.mk.injEq .. ▸ heq'
          exact absurd ha' (hnotin _)
        · exact h3 a i i' ha' hb'

/-- Unfolding `Data.dataGet` when `_data` is already present. -/
theorem Data.dataGet_eq_hit {s : Sys} {i : Nat} {e : Nat × DF}
    (h : s.dataCache.find? (fun e' => e'.1 = i) = some e) (gen : Except String DF) :
    Data.dataGet s i gen = (.ok e.2, s) := by
  unfold Data.dataGet
  rw [h]

/-- Unfolding `Data.dataGet` on first access with a succeeding generator. -/
theorem Data.dataGet_eq_miss_ok {s : Sys} {i : Nat} (d : DF)
    (h : s.dataCache.find? (fun e' => e'.1 = i) = none) :
    Data.dataGet s i (.ok d) =
      (.ok d, { s with dataCache := (i, d) :: s.dataCache,
                       genTotal := s.genTotal + 1 }) := by
  unfold Data.dataGet
  rw [h]

/-- Unfolding `Data.dataGet` on first access with a failing generator. -/
theorem Data.dataGet_eq_miss_err {s : Sys} {i : Nat} {msg : String}
    (h : s.dataCache.find? (fun e' => e'.1 = i) = none) :
    Data.dataGet s i (.error msg) =
      (.error msg, { s with genTotal := s.genTotal + 1 }) := by
  unfold Data.dataGet
  rw [h]

/-- The head entry of a just-extended `_data` cache is found immediately. -/
theorem Sys.find?_dataCache_cons (nc : List (Key × Nat)) (nid : Nat)
    (dc : List (Nat × DF)) (g : Nat) (i : Nat) (d : DF) :
    (Sys.mk nc nid ((i, d) :: dc) g).dataCache.find? (fun e' => e'.1 = i) =
      some (i, d) := by
  apply List.find?_cons_of_pos
  simp

/-- Once a materialization has succeeded, every later materialization of the
same instance returns the same cached dataset and leaves the state unchanged,
whatever its generator would now produce. -/
theorem Data.dataGet_cached {s : Sys} {i : Nat} {gen : Except String DF}
    {d : DF} {s' : Sys} (h : Data.dataGet s i gen = (.ok d, s'))
    (gen' : Except String DF) :
    Data.dataGet s' i gen' = (.ok d, s') := by
  cases hfind : s.dataCache.find? (fun e' => e'.1 = i) with
  | some e =>
      rw [Data.dataGet_eq_hit hfind gen] at h
      obtain ⟨h1, h2⟩ := Prod.mk.injEq .. ▸ h
      subst h2
      rw [Data.dataGet_eq_hit hfind gen', h1]
  | none =>
      cases gen with
      | ok d0 =>
          rw [Data.dataGet_eq_miss_ok d0 hfind] at h
          obtain ⟨h1, h2⟩ := Prod.mk.injEq .. ▸ h
          have hd : d0 = d := by simpa using h1
          subst hd
          subst h2
          rw [Data.dataGet_eq_hit
            (Sys.find?_dataCache_cons s.newCache s.nextId s.dataCache
              (s.genTotal + 1) i d0) gen']
      | error msg =>
          rw [Data.dataGet_eq_miss_err hfind] at h
          obtain ⟨h1, -⟩ := Prod.mk.injEq .. ▸ h
          simp at h1

/-- Repeated materialization of an already-materialized instance never changes
the state (in particular the generation counter stays put). -/
theorem Data.dataGetIter_cached {s : Sys} {i : Nat} {e : Nat × DF}
    (h : s.dataCache.find? (fun e' => e'.1 = i) = some e)
    (gen : Except String DF) :
    ∀ n, Data.dataGetIter s i gen n = s := by
  intro n
  induction n with
  | zero => rfl
  | succ n ih =>
      simp only [Data.dataGetIter]
      rw [Data.dataGet_eq_hit h gen]
      exact ih

/-- Two construction calls with different lru_cache keys never return the same
instance, whatever the cache holds. -/
theorem Data.new_ne {s : Sys} (hs : SysInv s) {k1 k2 : Key} (hne : k1 ≠ k2) :
    (Data.new (Data.new s k1).2 k2).1 ≠ (Data.new s k1).1 := by
  have hmem1 := Data.new_fst_mem s k1
  have hinv1 := Data.new_inv hs k1
  cases hfind : (Data.new s k1).2.newCache.find? (fun e' => e'.1 = k2) with
  | some e =>
      rw [Data.new_eq_hit hfind]
      show e.2 ≠ (Data.new s k1).1
      intro hEq
      have he1 : e ∈ (Data.new s k1).2.newCache := List.mem_of_find?_eq_some hfind
      have hk2 : e.1 = k2 := by simpa using List.find?_some hfind
      have h2 : (e.1, e.2) ∈ (Data.new s k1).2.newCache := he1
      rw [hk2, hEq] at h2
      exact hne (hinv1.2.1 k1 k2 _ hmem1 h2)
  | none =>
      rw [Data.new_eq_miss hfind]
      have hlt := hinv1.1 _ _ hmem1
      exact fun hEq => absurd (hEq ▸ hlt) (Nat.lt_irrefl _)

/-! ## Claim theorems: identity cache, laziness, failure, call-shape keying -/

/-- C1 (amended): while a (type, parameters) key is still present in the
`lru_cache` of `Data.__new__` — which is guaranteed for consecutive calls and
whenever fewer than 128 more-recent distinct keys intervene, but not over a
whole process lifetime — a construction call with that key returns the cached
instance identically and re-caches it; every construction call leaves its key
cached with the returned instance; and once a node materializes, every later
materialization returns the very same cached dataset object. -/
theorem c1_parameter_keyed_singleton :
    (∀ s k i, SysInv s → (k, i) ∈ s.newCache →
      (Data.new s k).1 = i ∧ (k, i) ∈ (Data.new s k).2.newCache) ∧
    (∀ s k, (k, (Data.new s k).1) ∈ (Data.new s k).2.newCache) ∧
    (∀ s i gen gen' d s', Data.dataGet s i gen = (.ok d, s') →
      Data.dataGet s' i gen' = (.ok d, s')) := by
  refine ⟨?_, Data.new_fst_mem, fun s i gen gen' d s' h => Data.dataGet_cached h gen'⟩
  intro s k i hs h
  rw [Data.new_eq_hit (hs.find?_eq h)]
  exact ⟨rfl, List.mem_cons_self _ _⟩

/-- C1 witness: a fresh `Level` node is returned identically by an immediately
repeated construction, and a cached dataset is returned unchanged by a second
materialization. -/
theorem c1_parameter_keyed_singleton_witness :
    ((Data.new (Data.new initSys (levelKey 0)).2 (levelKey 0)).1 =
        (Data.new initSys (levelKey 0)).1 ∧
      (levelKey 0, (Data.new initSys (levelKey 0)).1) ∈
        (Data.new (Data.new initSys (levelKey 0)).2 (levelKey 0)).2.newCache) ∧
    Data.dataGet (Data.dataGet initSys 0 (Except.ok sampleDF)).2 0
        (Except.error "late failure") =
      (Except.ok sampleDF, (Data.dataGet initSys 0 (Except.ok sampleDF)).2) :=
  ⟨c1_parameter_keyed_singleton.1 (Data.new initSys (levelKey 0)).2 (levelKey 0)
      (Data.new initSys (levelKey 0)).1
      (Data.new_inv initSys_inv (levelKey 0))
      (Data.new_fst_mem initSys (levelKey 0)),
   c1_parameter_keyed_singleton.2.2 initSys 0 (Except.ok sampleDF)
      (Except.error "late failure") sampleDF
      (Data.dataGet initSys 0 (Except.ok sampleDF)).2 rfl⟩

set_option maxRecDepth 40000

/-- C1 counterexample: `Data.__new__` is memoized with a bare `@lru_cache`,
whose default maxsize is 128 and which is shared by every node type; in a run
that constructs 129 distinct `Level` keys, re-constructing the first key no
longer finds it (it was evicted) and a second, distinct instance is created
for the same parameters within one process lifetime. -/
theorem c1_singleton_eviction_counterexample :
    (Data.new initSys (levelKey 0)).1 = 0 ∧
    (Data.new (runNews ((List.range 129).map levelKey) initSys) (levelKey 0)).1
      = 129 := by
  decide

/-- C2: constructing a node touches neither any node's `_data` attribute nor
the generation counter (no source read, no filtering); the first
materialization runs `_generate_data` exactly once and returns its dataset;
and any number of further materializations return the same state — so the
counter reads exactly one more than before the first call forever after. -/
theorem c2_lazy_materialize_once :
    (∀ s k, (Data.new s k).2.dataCache = s.dataCache ∧
            (Data.new s k).2.genTotal = s.genTotal) ∧
    (∀ s i d, s.dataCache.find? (fun e' => e'.1 = i) = none →
      (Data.dataGet s i (Except.ok d)).1 = Except.ok d ∧
      (Data.dataGet s i (Except.ok d)).2.genTotal = s.genTotal + 1 ∧
      (∀ gen', Data.dataGet (Data.dataGet s i (Except.ok d)).2 i gen' =
        (Except.ok d, (Data.dataGet s i (Except.ok d)).2)) ∧
      (∀ gen' n, Data.dataGetIter (Data.dataGet s i (Except.ok d)).2 i gen' n =
        (Data.dataGet s i (Except.ok d)).2)) := by
  constructor
  · intro s k
    cases hfind : s.newCache.find? (fun e' => e'.1 = k) with
    | some e => rw [Data.new_eq_hit hfind]; exact ⟨rfl, rfl⟩
    | none => rw [Data.new_eq_miss hfind]; exact ⟨rfl, rfl⟩
  · intro s i d h
    have hstep := Data.dataGet_eq_miss_ok d h
    have hfind' : ((Data.dataGet s i (Except.ok d)).2.dataCache.find?
        (fun e' => e'.1 = i)) = some (i, d) := by
      rw [hstep]
      apply List.find?_cons_of_pos
      simp
    refine ⟨by rw [hstep], by rw [hstep], ?_, ?_⟩
    · intro gen'
      exact Data.dataGet_eq_hit hfind' gen'
    · intro gen' n
      exact Data.dataGetIter_cached hfind' gen' n

/-- C2 witness: from a fresh state, the first materialization of instance 0
generates once; ten further materializations change nothing. -/
theorem c2_lazy_materialize_once_witness :
    (Data.dataGet initSys 0 (Except.ok sampleDF)).1 = Except.ok sampleDF ∧
    (Data.dataGet initSys 0 (Except.ok sampleDF)).2.genTotal =
      initSys.genTotal + 1 ∧
    Data.dataGetIter (Data.dataGet initSys 0 (Except.ok sampleDF)).2 0
        (Except.error "never run") 10 =
      (Data.dataGet initSys 0 (Except.ok sampleDF)).2 :=
  have h := c2_lazy_materialize_once.2 initSys 0 sampleDF rfl
  ⟨h.1, h.2.1, h.2.2.2 (Except.error "never run") 10⟩

/-- C5: if `_generate_data` raises on the first materialization, the exception
propagates unchanged, the `_data` attribute is not set and the identity cache
is untouched (the state keeps its `dataCache` and `newCache`, only the
invocation counter advanced), and a retry whose generation now succeeds
re-runs the routine and returns the dataset. -/
theorem c5_generation_failure_not_cached :
    ∀ s i msg, s.dataCache.find? (fun e' => e'.1 = i) = none →
      Data.dataGet s i (Except.error msg) =
        (Except.error msg, { s with genTotal := s.genTotal + 1 }) ∧
      (∀ d, Data.dataGet { s with genTotal := s.genTotal + 1 } i (Except.ok d) =
        (Except.ok d, { s with dataCache := (i, d) :: s.dataCache,
                               genTotal := s.genTotal + 1 + 1 })) := by
  intro s i msg h
  refine ⟨Data.dataGet_eq_miss_err h, ?_⟩
  intro d
  exact Data.dataGet_eq_miss_ok d h

/-- C5 witness: a missing-source failure on instance 0 propagates, caches
nothing, and a retry succeeds with the dataset. -/
theorem c5_generation_failure_not_cached_witness :
    Data.dataGet initSys 0 (Except.error "FileNotFoundError") =
      (Except.error "FileNotFoundError",
        { initSys with genTotal := initSys.genTotal + 1 }) ∧
    Data.dataGet { initSys with genTotal := initSys.genTotal + 1 } 0
        (Except.ok sampleDF) =
      (Except.ok sampleDF,
        { initSys with dataCache := (0, sampleDF) :: initSys.dataCache,
                       genTotal := initSys.genTotal + 1 + 1 }) :=
  have h := c5_generation_failure_not_cached initSys 0 "FileNotFoundError" rfl
  ⟨h.1, h.2 sampleDF⟩

/-- C9: node identity is keyed on the exact call shape. The calls
`GeoJSONManager(path)`, `GeoJSONManager(path, "ISO-8859-1")` and
`GeoJSONManager(path, encoding="ISO-8859-1")` all bind the same resolved
`(filepath, encoding)` parameters, yet their `lru_cache` keys differ pairwise
as listed, and any two construction calls with different keys return distinct
instances. -/
theorem c9_identity_keyed_on_call_shape :
    (∀ p, GeoJSONManager.bindParams (geoKeyDefaulted p).args (geoKeyDefaulted p).kwargs =
            GeoJSONManager.bindParams (geoKeyExplicit p).args (geoKeyExplicit p).kwargs ∧
          geoKeyDefaulted p ≠ geoKeyExplicit p) ∧
    (∀ p, GeoJSONManager.bindParams (geoKeyKeyword p).args (geoKeyKeyword p).kwargs =
            GeoJSONManager.bindParams (geoKeyExplicit p).args (geoKeyExplicit p).kwargs ∧
          geoKeyKeyword p ≠ geoKeyExplicit p) ∧
    (∀ s k1 k2, SysInv s → k1 ≠ k2 →
      (Data.new (Data.new s k1).2 k2).1 ≠ (Data.new s k1).1) := by
  refine ⟨?_, ?_, fun s k1 k2 hs hne => Data.new_ne hs hne⟩
  · intro p
    constructor
    · rfl
    · intro hEq
      simp [geoKeyDefaulted, geoKeyExplicit, Key.mk.injEq] at hEq
  · intro p
    constructor
    · simp [GeoJSONManager.bindParams, geoKeyKeyword, geoKeyExplicit]
    · intro hEq
      simp [geoKeyKeyword, geoKeyExplicit, Key.mk.injEq] at hEq

/-- C9 witness: the defaulted and explicit-encoding calls for one concrete
path resolve to equal parameters but produce two distinct instances from the
fresh interpreter state. -/
theorem c9_identity_keyed_on_call_shape_witness :
    (GeoJSONManager.bindParams (geoKeyDefaulted "map.json".toList).args
        (geoKeyDefaulted "map.json".toList).kwargs =
      GeoJSONManager.bindParams (geoKeyExplicit "map.json".toList).args
        (geoKeyExplicit "map.json".toList).kwargs ∧
      geoKeyDefaulted "map.json".toList ≠ geoKeyExplicit "map.json".toList) ∧
    (Data.new (Data.new initSys (geoKeyDefaulted "map.json".toList)).2
        (geoKeyExplicit "map.json".toList)).1 ≠
      (Data.new initSys (geoKeyDefaulted "map.json".toList)).1 :=
  ⟨c9_identity_keyed_on_call_shape.1 "map.json".toList,
   c9_identity_keyed_on_call_shape.2.2 initSys (geoKeyDefaulted "map.json".toList)
      (geoKeyExplicit "map.json".toList) initSys_inv (by decide)⟩

/-! ## Helper lemmas about the filter classes and the GeoJSON generator -/

/-- Unfolding `Filter._generate_data` when the filter column is present. -/
theorem Filter.generateData_rows_pos {col : PyStr} {outer : DF}
    (cellOf : Row → PyStr) (filt : PyStr → PyStr → Bool) (value : PyStr)
    (h : col ∈ outer.cols) :
    Filter.generateData col cellOf filt value outer =
      ⟨outer.cols, outer.rows.filter (fun r => filt (cellOf r) value)⟩ := by
  unfold Filter.generateData
  rw [if_pos h]

/-- Unfolding `Filter._generate_data` when the filter column is absent. -/
theorem Filter.generateData_rows_neg {col : PyStr} {outer : DF}
    (cellOf : Row → PyStr) (filt : PyStr → PyStr → Bool) (value : PyStr)
    (h : ¬ col ∈ outer.cols) :
    Filter.generateData col cellOf filt value outer = outer := by
  unfold Filter.generateData
  rw [if_neg h]

/-- Unfolding `Feature.joinProps` on a nonempty property-key list. -/
theorem Feature.joinProps_cons (f : Feature) (k : PyStr) (ks : List PyStr) :
    f.joinProps (k :: ks) =
      match f.properties.lookup k, f.joinProps ks with
      | some v, some rest => some (v ++ rest)
      | _, _ => none := rfl

/-- Joining two properties a feature has. -/
theorem Feature.joinProps_pair {f : Feature} {kS kC : PyStr} {vS vC : PyStr}
    (hS : f.properties.lookup kS = some vS)
    (hC : f.properties.lookup kC = some vC) :
    f.joinProps [kS, kC] = some (vS ++ vC) := by
  rw [Feature.joinProps_cons, Feature.joinProps_cons, hS, hC]
  simp [Feature.joinProps]

/-- Joining a single property a feature has. -/
theorem Feature.joinProps_single {f : Feature} {kS : PyStr} {vS : PyStr}
    (hS : f.properties.lookup kS = some vS) :
    f.joinProps [kS] = some vS := by
  rw [Feature.joinProps_cons, hS]
  simp [Feature.joinProps]

/-- Unfolding `GeoJSONManager._generate_data` on a document with at least one
feature: the property-key list is chosen by inspecting the first feature. -/
theorem GeoJSONManager.generateData_cons {g : GeoMap} {f0 : Feature}
    {rest : List Feature} (hfeat : g.features = f0 :: rest) :
    GeoJSONManager.generateData g =
      Option.map (fun fs => { g with features := fs })
        (setIds (if f0.hasProp "COUNTY".toList
                 then ["STATE".toList, "COUNTY".toList]
                 else ["STATE".toList]) g.features) := by
  unfold GeoJSONManager.generateData
  rw [hfeat]

/-- Evaluating `setIds` over a feature list with two keys present everywhere: every
feature gets the concatenation of its two property values. -/
theorem setIds_county (kS kC : PyStr) : ∀ (l : List Feature),
    (∀ f ∈ l, (f.properties.lookup kS).isSome) →
    (∀ f ∈ l, (f.properties.lookup kC).isSome) →
    setIds [kS, kC] l = some (l.map (fun f =>
      { f with id := some (((f.properties.lookup kS).getD []) ++
        ((f.properties.lookup kC).getD [])) })) := by
  intro l
  induction l with
  | nil => intro _ _; rfl
  | cons f fs ih =>
      intro hS hC
      obtain ⟨vS, hvS⟩ := Option.isSome_iff_exists.mp (hS f (List.mem_cons_self ..))
      obtain ⟨vC, hvC⟩ := Option.isSome_iff_exists.mp (hC f (List.mem_cons_self ..))
      have hrest := ih (fun g hg => hS g (List.mem_cons_of_mem _ hg))
        (fun g hg => hC g (List.mem_cons_of_mem _ hg))
      simp [setIds, Feature.joinProps_pair hvS hvC, hrest, hvS, hvC]

/-- Evaluating `setIds` over a feature list with one key present everywhere: every
feature gets its property value. -/
theorem setIds_single (kS : PyStr) : ∀ (l : List Feature),
    (∀ f ∈ l, (f.properties.lookup kS).isSome) →
    setIds [kS] l = some (l.map (fun f =>
      { f with id := some ((f.properties.lookup kS).getD []) })) := by
  intro l
  induction l with
  | nil => intro _; rfl
  | cons f fs ih =>
      intro hS
      obtain ⟨vS, hvS⟩ := Option.isSome_iff_exists.mp (hS f (List.mem_cons_self ..))
      have hrest := ih (fun g hg => hS g (List.mem_cons_of_mem _ hg))
      simp [setIds, Feature.joinProps_single hvS, hrest, hvS]

/-! ## Claim theorems: filtering, composition, emptiness, geometry, shadowing -/

/-- C3: when the outer dataset has the region-code column `fips`, the Region
node's dataset holds exactly the outer rows whose `fips` value starts with the
given code, and the empty code (the `region()` default) keeps every row
unchanged. -/
theorem c3_region_prefix_filter :
    ∀ (outer : DF) (p : PyStr), Region.FILTER_COL ∈ outer.cols →
      (∀ r, r ∈ (Region.generateData outer p).rows ↔
        r ∈ outer.rows ∧ p <+: r.fips) ∧
      (Region.generateData outer []).rows = outer.rows := by
  intro outer p h
  constructor
  · intro r
    simp only [Region.generateData]
    rw [Filter.generateData_rows_pos Row.fips Region.filterFn p h]
    simp [Region.filterFn]
  · simp only [Region.generateData]
    rw [Filter.generateData_rows_pos Row.fips Region.filterFn [] h]
    simp [Region.filterFn]

/-- C3 witness: on the sample dataset, `region("42")` keeps the county row
`42003` exactly because its code starts with `42`, and `region("")` keeps all
rows unchanged. -/
theorem c3_region_prefix_filter_witness :
    (row42003 ∈ (Region.generateData sampleDF "42".toList).rows ↔
      row42003 ∈ sampleDF.rows ∧ "42".toList <+: row42003.fips) ∧
    (Region.generateData sampleDF []).rows = sampleDF.rows :=
  ⟨(c3_region_prefix_filter sampleDF "42".toList (by decide)).1 row42003,
   (c3_region_prefix_filter sampleDF [] (by decide)).2⟩

/-- C4: nested region filtering composes — when `p1` is a prefix of `p2`,
`level.region(p1).region(p2)` materializes the same rows as
`level.region(p2)` directly. -/
theorem c4_nested_region_composition :
    ∀ (df : DF) (p1 p2 : PyStr), p1 <+: p2 →
      (Region.generateData (Region.generateData df p1) p2).rows =
        (Region.generateData df p2).rows := by
  intro df p1 p2 h
  by_cases hc : Region.FILTER_COL ∈ df.cols
  · have hc' : Region.FILTER_COL ∈
        (⟨df.cols, df.rows.filter (fun r => Region.filterFn r.fips p1)⟩ :
          DF).cols := hc
    simp only [Region.generateData]
    rw [Filter.generateData_rows_pos Row.fips Region.filterFn p1 hc,
        Filter.generateData_rows_pos Row.fips Region.filterFn p2 hc',
        Filter.generateData_rows_pos Row.fips Region.filterFn p2 hc]
    show (df.rows.filter (fun r => Region.filterFn r.fips p1)).filter
        (fun r => Region.filterFn r.fips p2) =
      df.rows.filter (fun r => Region.filterFn r.fips p2)
    rw [List.filter_filter]
    apply List.filter_congr
    intro r hr
    show (Region.filterFn r.fips p2 && Region.filterFn r.fips p1) =
      Region.filterFn r.fips p2
    cases hb : Region.filterFn r.fips p2 with
    | true =>
        have h2 : p2 <+: r.fips := by
          simpa [Region.filterFn] using hb
        have h1 : Region.filterFn r.fips p1 = true := by
          simp [Region.filterFn]
          exact h.trans h2
        simp [h1]
    | false => simp
  · simp only [Region.generateData]
    rw [Filter.generateData_rows_neg Row.fips Region.filterFn p1 hc]

/-- C4 witness: on the sample dataset, filtering to `42` and then to `42003`
equals filtering to `42003` directly. -/
theorem c4_nested_region_composition_witness :
    (Region.generateData (Region.generateData sampleDF "42".toList)
        "42003".toList).rows =
      (Region.generateData sampleDF "42003".toList).rows :=
  c4_nested_region_composition sampleDF "42".toList "42003".toList (by decide)

/-- C6: when the outer (Region) dataset has the `date` column, the Date node's
dataset is exactly the filter of the outer rows by date equality, hence a
subsequence of the outer rows (original order preserved), and a row belongs to
it iff it is an outer row whose date equals the value. -/
theorem c6_date_exact_filter :
    ∀ (outer : DF) (d : PyStr), Date.FILTER_COL ∈ outer.cols →
      (Date.generateData outer d).rows =
        outer.rows.filter (fun r => r.date == d) ∧
      List.Sublist (Date.generateData outer d).rows outer.rows ∧
      (∀ r, r ∈ (Date.generateData outer d).rows ↔
        r ∈ outer.rows ∧ r.date = d) := by
  intro outer d h
  simp only [Date.generateData]
  rw [Filter.generateData_rows_pos Row.date Filter.filterDefault d h]
  refine ⟨rfl, List.filter_sublist _, ?_⟩
  intro r
  simp [Filter.filterDefault]

/-- C6 witness: on the sample dataset, `date("2020-09-27")` is the equality
filter, a subsequence of the original rows, containing the `42003` row. -/
theorem c6_date_exact_filter_witness :
    (Date.generateData sampleDF "2020-09-27".toList).rows =
      sampleDF.rows.filter (fun r => r.date == "2020-09-27".toList) ∧
    List.Sublist (Date.generateData sampleDF "2020-09-27".toList).rows
      sampleDF.rows ∧
    (row42003 ∈ (Date.generateData sampleDF "2020-09-27".toList).rows ↔
      row42003 ∈ sampleDF.rows ∧ row42003.date = "2020-09-27".toList) :=
  have h := c6_date_exact_filter sampleDF "2020-09-27".toList (by decide)
  ⟨h.1, h.2.1, h.2.2 row42003⟩

/-- C7: a region code no row starts with yields a node whose dataset has zero
rows; `Region._generate_data` is a total function of the outer dataset (there
is no raising code path), so emptiness is the returned value, not an error. -/
theorem c7_unmatched_region_empty :
    ∀ (df : DF) (p : PyStr), Region.FILTER_COL ∈ df.cols →
      (∀ r ∈ df.rows, ¬ (p <+: r.fips)) →
      (Region.generateData df p).rows = [] := by
  intro df p hc h
  simp only [Region.generateData]
  rw [Filter.generateData_rows_pos Row.fips Region.filterFn p hc]
  rw [show (⟨df.cols, df.rows.filter (fun r => Region.filterFn r.fips p)⟩ :
    DF).rows = df.rows.filter (fun r => Region.filterFn r.fips p) from rfl]
  rw [List.filter_eq_nil_iff]
  intro r hr
  simp [Region.filterFn]
  exact h r hr

/-- C7 witness: on the sample dataset, `region("99")` materializes zero
rows. -/
theorem c7_unmatched_region_empty_witness :
    (Region.generateData sampleDF "99".toList).rows = [] :=
  c7_unmatched_region_empty sampleDF "99".toList (by decide) (by decide)

/-- C8: generation synthesizes per-feature ids. For a document whose features
all carry `STATE` and all carry `COUNTY` (county level), each feature's id
becomes the concatenation of its `STATE` and `COUNTY` values; for a document
whose features carry no `COUNTY`, each id is the `STATE` value alone; all
other top-level fields pass through. -/
theorem c8_geo_id_synthesis :
    ∀ (g : GeoMap), g.features ≠ [] →
      (∀ f ∈ g.features, (f.properties.lookup "STATE".toList).isSome) →
      ((∀ f ∈ g.features, (f.properties.lookup "COUNTY".toList).isSome) →
        GeoJSONManager.generateData g = some ⟨g.features.map (fun f =>
          { f with id := some (((f.properties.lookup "STATE".toList).getD []) ++
            ((f.properties.lookup "COUNTY".toList).getD [])) }),
          g.otherFields⟩) ∧
      ((∀ f ∈ g.features, f.properties.lookup "COUNTY".toList = none) →
        GeoJSONManager.generateData g = some ⟨g.features.map (fun f =>
          { f with id := some ((f.properties.lookup "STATE".toList).getD []) }),
          g.otherFields⟩) := by
  intro g hne hS
  constructor
  · intro hC
    cases hfeat : g.features with
    | nil => exact absurd hfeat hne
    | cons f0 rest =>
        have h0 : f0.hasProp "COUNTY".toList = true := by
          unfold Feature.hasProp
          exact hC f0 (by rw [hfeat]; exact List.mem_cons_self ..)
        rw [GeoJSONManager.generateData_cons hfeat, hfeat, if_pos h0,
          setIds_county "STATE".toList "COUNTY".toList (f0 :: rest)
            (hfeat ▸ hS) (hfeat ▸ hC)]
        rfl
  · intro hC
    cases hfeat : g.features with
    | nil => exact absurd hfeat hne
    | cons f0 rest =>
        have h0 : ¬ (f0.hasProp "COUNTY".toList = true) := by
          unfold Feature.hasProp
          rw [hC f0 (by rw [hfeat]; exact List.mem_cons_self ..)]
          simp
        rw [GeoJSONManager.generateData_cons hfeat, hfeat, if_neg h0,
          setIds_single "STATE".toList (f0 :: rest) (hfeat ▸ hS)]
        rfl

/-- C8 witness: the feature with `STATE="42"`, `COUNTY="003"` receives id
`"42003"`; the feature with only `STATE="06"` receives id `"06"`. -/
theorem c8_geo_id_synthesis_witness :
    GeoJSONManager.generateData countyMap = some ⟨countyMap.features.map (fun f =>
      { f with id := some (((f.properties.lookup "STATE".toList).getD []) ++
        ((f.properties.lookup "COUNTY".toList).getD [])) }),
      countyMap.otherFields⟩ ∧
    GeoJSONManager.generateData stateMap = some ⟨stateMap.features.map (fun f =>
      { f with id := some ((f.properties.lookup "STATE".toList).getD []) }),
      stateMap.otherFields⟩ :=
  ⟨(c8_geo_id_synthesis countyMap (by decide) (by decide)).1 (by decide),
   (c8_geo_id_synthesis stateMap (by decide) (by decide)).2 (by decide)⟩

/-- C10: on `Level` and `Date` instances the attribute named `date` resolves
along the MRO to the inherited `CovidData` column property, projecting the
dataset's date column; on `Region` instances the name resolves to `Region`'s
own derivation method, which shadows the inherited property, so the date
column cannot be read through the named `date` accessor on a Region. -/
theorem c10_region_shadows_date_accessor :
    (∀ df, readDateAttr .levelCls df = some (dateColumn df) ∧
           readDateAttr .dateCls df = some (dateColumn df) ∧
           readDateAttr .regionCls df = none) ∧
    lookupDate .regionCls = some .deriveMethod ∧
    lookupDate .levelCls = some .columnProperty ∧
    lookupDate .dateCls = some .columnProperty :=
  ⟨fun _ => ⟨rfl, rfl, rfl⟩, rfl, rfl, rfl⟩

end CovidRepo
